import Mathlib

/-!
Shallow embedding of the storage adapters of x-micro-ocpp
(src/ArduinoOcpp/Core/FilesystemAdapter.cpp).

The file has two compile-time branches: the Arduino branch
(ArduinoFileAdapter, ArduinoFilesystemAdapter, lines 43-157) built on the
Arduino File API (USE_FS.exists / open / remove, File::isFile / size), and
the ESP-IDF branch (EspIdfFileAdapter, EspIdfFilesystemAdapter, lines
159-270) built on POSIX libc (stat, fopen, fread, fwrite, fseek, unlink)
plus esp_vfs_spiffs_register. Both branches are embedded here.

The underlying platform API is modelled as an explicit environment
(a structure of functions standing for the results of the platform calls),
and in addition a concrete in-memory filesystem instantiates each
environment so the adapter code can be evaluated on concrete inputs.
-/

set_option autoImplicit false

/-- Modelled from the spec: FilesystemOpt comes from
ArduinoOcpp/Core/ConfigurationOptions.h, which is not part of the given
sources. FilesystemAdapter.cpp consumes it only through the three
predicates accessAllowed(), mustMount() and formatOnFail(), so it is
modelled as exactly those three flags. -/
structure FilesystemOpt where
  accessAllowed : Bool
  mustMount : Bool
  formatOnFail : Bool
deriving DecidableEq

/-- An entry of the concrete in-memory filesystem: a regular file holding
a list of bytes, or a directory. -/
inductive FsEntry
  | file (data : List Nat)
  | dir
deriving DecidableEq

/-- A concrete in-memory filesystem: an association list from path to
entry (first match wins). -/
abbrev Fs := List (String × FsEntry)

/-- Lookup of a path in the in-memory filesystem. -/
def Fs.lookup : Fs → String → Option FsEntry
  | [], _ => none
  | (k, e) :: rest, key => if k = key then some e else Fs.lookup rest key

/-- Insert or overwrite the regular file stored at a path. -/
def Fs.setFile : Fs → String → List Nat → Fs
  | [], key, d => [(key, FsEntry.file d)]
  | (k, e) :: rest, key, d =>
      if k = key then (key, FsEntry.file d) :: rest
      else (k, e) :: Fs.setFile rest key d

/-! ## Arduino branch (lines 43-157) -/

/-- The value of an Arduino File object as far as FilesystemAdapter.cpp
inspects it: whether it is truthy-and-a-regular-file, and its size. -/
structure ArduinoFile where
  isFile : Bool
  size : Nat
deriving DecidableEq

/-- The underlying Arduino filesystem API (USE_FS): results of the
platform calls the adapter makes. fsExists stands for USE_FS.exists,
fsOpen for USE_FS.open (none = falsy File object), fsRemove for
USE_FS.remove, and fsBegin for USE_FS.begin given the format-on-fail
flag (the mount attempt of the constructor, line 75 / line 85). -/
structure ArduinoFsEnv where
  fsExists : String → Bool
  fsOpen : String → String → Option ArduinoFile
  fsRemove : String → Bool
  fsBegin : Bool → Bool

/-- ArduinoFileAdapter (line 48): wraps an open Arduino File. -/
structure ArduinoFileAdapter where
  file : ArduinoFile
deriving DecidableEq

/-- ArduinoFilesystemAdapter state (lines 65-68): the valid flag and the
stored config. -/
structure ArduinoFilesystemAdapter where
  valid : Bool
  config : FilesystemOpt
deriving DecidableEq

/-- The ArduinoFilesystemAdapter constructor (lines 70-93): valid starts
true; when config.mustMount() the filesystem is mounted and a mount
failure clears valid. -/
def ArduinoFilesystemAdapter.construct (env : ArduinoFsEnv) (config : FilesystemOpt) :
    ArduinoFilesystemAdapter :=
  { valid := if config.mustMount then env.fsBegin config.formatOnFail else true
    config := config }

/-- ArduinoFilesystemAdapter::stat (lines 103-123). The size parameter is
the value of the caller-supplied size cell; the result is the returned
status together with the value of that cell after the call. Line 114
reads size = f.size() and thus assigns the pointer parameter itself, not
the pointee, so the callers cell is unchanged in every branch. -/
def ArduinoFilesystemAdapter.stat (env : ArduinoFsEnv) (path : String) (size : Nat) :
    Int × Nat :=
  if !(env.fsExists path) then (-1, size)
  else
    match env.fsOpen path "r" with
    | none => (-1, size)
    | some f =>
      if f.isFile then
        (0, size)
      else
        (-1, size)

/-- ArduinoFilesystemAdapter::open (lines 125-132): wrap the File in an
ArduinoFileAdapter when open succeeded and yielded a regular file,
otherwise return nullptr. -/
def ArduinoFilesystemAdapter.openFile (env : ArduinoFsEnv) (fn mode : String) :
    Option ArduinoFileAdapter :=
  match env.fsOpen fn mode with
  | some file => if file.isFile then some ⟨file⟩ else none
  | none => none

/-- ArduinoFilesystemAdapter::remove (lines 133-135). -/
def ArduinoFilesystemAdapter.remove (env : ArduinoFsEnv) (fn : String) : Bool :=
  env.fsRemove fn

/-- EspWiFi::makeDefaultFilesystemAdapter, Arduino branch (lines 138-154):
nullptr when access is not allowed; otherwise construct the adapter and
return it only when it is valid. -/
def makeDefaultFilesystemAdapterArduino (env : ArduinoFsEnv) (config : FilesystemOpt) :
    Option ArduinoFilesystemAdapter :=
  if !config.accessAllowed then none
  else
    let fs := ArduinoFilesystemAdapter.construct env config
    if fs.valid then some fs else none

/-- The concrete Arduino environment over an in-memory filesystem: a path
exists when it has an entry; opening a path yields a truthy File for a
regular file (isFile true, size = byte count) and for a directory a
truthy File with isFile false; opening a missing path yields a falsy
File; remove succeeds when the entry exists; mounting succeeds. -/
def mkArduinoEnv (fs : Fs) : ArduinoFsEnv :=
  { fsExists := fun p => (Fs.lookup fs p).isSome
    fsOpen := fun p _ =>
      match Fs.lookup fs p with
      | some (FsEntry.file d) => some ⟨true, d.length⟩
      | some FsEntry.dir => some ⟨false, 0⟩
      | none => none
    fsRemove := fun p => (Fs.lookup fs p).isSome
    fsBegin := fun _ => true }

/-! ## ESP-IDF branch (lines 159-270) -/

/-- An open POSIX stream: the bytes of the file, the current position,
and the number of bytes the medium will still accept (wcap), which
models short writes of fwrite on a full medium. -/
structure PosixFile where
  data : List Nat
  pos : Nat
  wcap : Nat
deriving DecidableEq

/-- The underlying POSIX / ESP-IDF API: statRes p is some st_size when
::stat(p, &st) returns 0 and none when it returns nonzero; fopenRes is
fopen (none = NULL); unlinkRes is the return value of unlink; and
spiffsRegisterRes is the esp_err_t of esp_vfs_spiffs_register given the
format_if_mount_failed flag (0 = ESP_OK). -/
structure PosixEnv where
  statRes : String → Option Nat
  fopenRes : String → String → Option PosixFile
  unlinkRes : String → Int
  spiffsRegisterRes : Bool → Int

/-- Model of fread(buf, 1, len, file) (libc): delivers the next
min(len, remaining) bytes and returns how many were delivered. The first
component is the bytes placed into buf, the second the return value. -/
def freadM (f : PosixFile) (len : Nat) : List Nat × Nat × PosixFile :=
  let chunk := (f.data.drop f.pos).take len
  (chunk, chunk.length, { f with pos := f.pos + chunk.length })

/-- Model of fwrite(buf, 1, len, file) (libc): stores as many of the
bytes as the medium accepts at the current position (zero-filling any gap
when the position is past the end) and returns how many were stored. The
Lean buf is exactly the len bytes of the C buffer. -/
def fwriteM (f : PosixFile) (buf : List Nat) : Nat × PosixFile :=
  let wr := buf.take f.wcap
  let base := f.data ++ List.replicate (f.pos - f.data.length) 0
  (wr.length,
    { data := base.take f.pos ++ wr ++ base.drop (f.pos + wr.length)
      pos := f.pos + wr.length
      wcap := f.wcap - wr.length })

/-- Model of fseek(file, offset, SEEK_SET) (libc) on a valid in-memory
stream: repositions the stream and returns 0, the success status. The
return value of fseek is a status, not the resulting offset. -/
def fseekM (f : PosixFile) (offset : Nat) : Nat × PosixFile :=
  (0, { f with pos := offset })

/-- EspIdfFileAdapter (lines 164-188): wraps an open FILE stream. -/
structure EspIdfFileAdapter where
  file : PosixFile
deriving DecidableEq

/-- EspIdfFileAdapter::read (lines 173-175): return fread(buf, 1, len,
file). The result is (bytes delivered to buf, returned count, handle
afterwards). -/
def EspIdfFileAdapter.read (h : EspIdfFileAdapter) (len : Nat) :
    List Nat × Nat × EspIdfFileAdapter :=
  let r := freadM h.file len
  (r.1, r.2.1, ⟨r.2.2⟩)

/-- EspIdfFileAdapter::write (lines 177-179): return fwrite(buf, 1, len,
file). The result is (returned count, handle afterwards). -/
def EspIdfFileAdapter.write (h : EspIdfFileAdapter) (buf : List Nat) :
    Nat × EspIdfFileAdapter :=
  let r := fwriteM h.file buf
  (r.1, ⟨r.2⟩)

/-- EspIdfFileAdapter::seek (lines 181-183): return fseek(file, offset,
SEEK_SET). The result is (returned value, handle afterwards). -/
def EspIdfFileAdapter.seek (h : EspIdfFileAdapter) (offset : Nat) :
    Nat × EspIdfFileAdapter :=
  let r := fseekM h.file offset
  (r.1, ⟨r.2⟩)

/-- EspIdfFilesystemAdapter state (lines 190-194): the stored config. -/
structure EspIdfFilesystemAdapter where
  config : FilesystemOpt
deriving DecidableEq

/-- EspIdfFilesystemAdapter::stat (lines 203-210): call ::stat; when it
returned 0 write st.st_size through the size pointer; return the status.
The size parameter is the value of the caller-supplied cell, and the
result pairs the returned status with the value of that cell after the
call. -/
def EspIdfFilesystemAdapter.stat (env : PosixEnv) (path : String) (size : Nat) :
    Int × Nat :=
  match env.statRes path with
  | some stSize => (0, stSize)
  | none => (-1, size)

/-- EspIdfFilesystemAdapter::open (lines 212-220): wrap the FILE in an
EspIdfFileAdapter when fopen succeeded, otherwise return nullptr. -/
def EspIdfFilesystemAdapter.openFile (env : PosixEnv) (fn mode : String) :
    Option EspIdfFileAdapter :=
  match env.fopenRes fn mode with
  | some file => some ⟨file⟩
  | none => none

/-- EspIdfFilesystemAdapter::remove (lines 222-224): unlink(fn) == 0. -/
def EspIdfFilesystemAdapter.remove (env : PosixEnv) (fn : String) : Bool :=
  env.unlinkRes fn == 0

/-- EspWiFi::makeDefaultFilesystemAdapter, ESP-IDF branch (lines
227-267): nullptr when access is not allowed; when mounting is required,
mounted is true exactly when esp_vfs_spiffs_register returned ESP_OK;
the adapter is returned only when mounted. -/
def makeDefaultFilesystemAdapterEspIdf (env : PosixEnv) (config : FilesystemOpt) :
    Option EspIdfFilesystemAdapter :=
  if !config.accessAllowed then none
  else
    let mounted :=
      if config.mustMount then env.spiffsRegisterRes config.formatOnFail == 0 else true
    if mounted then some ⟨config⟩ else none

/-- The concrete POSIX environment over an in-memory filesystem: ::stat
succeeds on any existing entry (st_size of a regular file is its byte
count; a directory is given st_size 0), fopen succeeds exactly on
regular files (SPIFFS has no real directory streams) with the position
at 0 and an unbounded write capacity, and unlink succeeds exactly on
existing entries. Registering the SPIFFS partition succeeds. -/
def mkPosixEnv (fs : Fs) : PosixEnv :=
  { statRes := fun p =>
      match Fs.lookup fs p with
      | some (FsEntry.file d) => some d.length
      | some FsEntry.dir => some 0
      | none => none
    fopenRes := fun p _ =>
      match Fs.lookup fs p with
      | some (FsEntry.file d) => some ⟨d, 0, d.length + 1000⟩
      | some FsEntry.dir => none
      | none => none
    unlinkRes := fun p => if (Fs.lookup fs p).isSome then 0 else -1
    spiffsRegisterRes := fun _ => 0 }

/-! ## Persistent KV Store write path (modelled from the spec) -/

/-- Modelled from the spec: the Persistent KV Store layer itself is not
among the given sources (only the storage adapters are). Per the spec,
each write is a full-record overwrite of a single file named by the key,
performed through the adapter: fopen(key, "w") truncates (or creates)
the file, then the value is written with fwrite, then the stream is
closed. kvWriteState fs key value k is the filesystem after the first k
micro-steps of that write when the process crashes there: step 0 is
before the truncating open, step 1 is just after it (the file is empty),
step 1 + n is after n bytes have been written, and by step
value.length + 1 all bytes are on the medium. -/
def kvWriteState (fs : Fs) (key : String) (value : List Nat) : Nat → Fs
  | 0 => fs
  | n + 1 => Fs.setFile fs key (value.take n)

/-- The write has been acknowledged to the caller: fwrite has reported
every byte of the value written, i.e. at least value.length + 1
micro-steps have executed. -/
def kvWriteAcked (value : List Nat) (k : Nat) : Prop :=
  value.length + 1 ≤ k

instance (value : List Nat) (k : Nat) : Decidable (kvWriteAcked value k) := by
  unfold kvWriteAcked; infer_instance

/-- Reading a key back from the store: open the file for reading and
read its whole content. -/
def kvRead (fs : Fs) (key : String) : Option (List Nat) :=
  match Fs.lookup fs key with
  | some (FsEntry.file d) => some d
  | _ => none

theorem Fs.lookup_setFile (fs : Fs) (key : String) (d : List Nat) :
    Fs.lookup (Fs.setFile fs key d) key = some (FsEntry.file d) := by
  induction fs with
  | nil => simp [Fs.setFile, Fs.lookup]
  | cons kv rest ih =>
    obtain ⟨k, e⟩ := kv
    by_cases h : k = key
    · subst h; simp [Fs.setFile, Fs.lookup]
    · simp [Fs.setFile, h, Fs.lookup, ih]

/-! ## Claims -/

/-- Demo filesystem: one regular file of five bytes at path x. -/
def fsDemo : Fs := [("x", FsEntry.file [10, 20, 30, 40, 50])]

/-- C1: the claim says stat writes the size of an existing regular file
through the caller-supplied size pointer in both adapters. In the
Arduino adapter this fails: on fsDemo, where path x names a regular file
whose size is 5 (second conjunct), stat returns status 0 but leaves the
caller-supplied size cell at its initial value 0 (first conjunct),
because line 114 of FilesystemAdapter.cpp assigns the pointer parameter
size itself instead of the pointee. -/
theorem arduino_stat_size_output_unchanged :
    ArduinoFilesystemAdapter.stat (mkArduinoEnv fsDemo) "x" 0 = (0, 0) ∧
    Option.map ArduinoFile.size ((mkArduinoEnv fsDemo).fsOpen "x" "r") = some 5 := by
  decide

/-- Demo open file handle on the ESP-IDF side. -/
def fileDemo : EspIdfFileAdapter := ⟨⟨[1, 2, 3], 0, 1000⟩⟩

/-- C2 counterexample: seeking the demo handle to offset 5 returns 0,
not the offset 5 that was seeked to, so the returned value does not
equal the new offset. -/
theorem espidf_seek_counterexample :
    (EspIdfFileAdapter.seek fileDemo 5).1 = 0 ∧
    (EspIdfFileAdapter.seek fileDemo 5).1 ≠ 5 := by
  decide

/-- C2 amended: seek(offset) repositions the stream to offset but
returns the fseek status, which is 0 on success, not the new offset. -/
theorem espidf_seek_returns_fseek_status (h : EspIdfFileAdapter) (offset : Nat) :
    (EspIdfFileAdapter.seek h offset).1 = 0 ∧
    (EspIdfFileAdapter.seek h offset).2.file.pos = offset := by
  exact ⟨rfl, rfl⟩

/-- C3: over the modelled KV write path, once a write of a new value for
a key has been acknowledged (all bytes reported written), a crash at any
later micro-step leaves the store holding exactly the new value, so no
subsequent read of that key observes the old value. -/
theorem kv_write_acked_never_old (fs : Fs) (key : String) (old new : List Nat) (k : Nat)
    (hold : kvRead fs key = some old) (hne : old ≠ new)
    (hack : kvWriteAcked new k) :
    kvRead (kvWriteState fs key new k) key = some new ∧
    kvRead (kvWriteState fs key new k) key ≠ some old := by
  obtain ⟨n, rfl⟩ : ∃ n, k = n + 1 := ⟨k - 1, by unfold kvWriteAcked at hack; omega⟩
  have hn : new.length ≤ n := by unfold kvWriteAcked at hack; omega
  have htake : new.take n = new := List.take_of_length_le hn
  have hread : kvRead (kvWriteState fs key new (n + 1)) key = some new := by
    simp [kvWriteState, kvRead, Fs.lookup_setFile, htake]
  refine ⟨hread, ?_⟩
  rw [hread]
  intro hcontra
  exact hne (Option.some.injEq new old ▸ hcontra).symm

/-- C3 witness: a concrete store holding [1] at key k, overwritten by
[2, 3]; at micro-step 3 the write is acknowledged and reads return
[2, 3], never [1]. -/
theorem kv_write_acked_never_old_witness :
    kvRead (kvWriteState [("k", FsEntry.file [1])] "k" [2, 3] 3) "k" = some [2, 3] ∧
    kvRead (kvWriteState [("k", FsEntry.file [1])] "k" [2, 3] 3) "k" ≠ some [1] :=
  kv_write_acked_never_old [("k", FsEntry.file [1])] "k" [1] [2, 3] 3
    (by decide) (by decide) (by decide)

/-- C5: a path with no entry in the filesystem gets a nonzero status
from stat in both adapters. -/
theorem stat_nonexistent_path_fails (fs : Fs) (path : String) (s t : Nat)
    (h : Fs.lookup fs path = none) :
    (ArduinoFilesystemAdapter.stat (mkArduinoEnv fs) path s).1 ≠ 0 ∧
    (EspIdfFilesystemAdapter.stat (mkPosixEnv fs) path t).1 ≠ 0 := by
  constructor
  · simp [ArduinoFilesystemAdapter.stat, mkArduinoEnv, h]
  · simp [EspIdfFilesystemAdapter.stat, mkPosixEnv, h]

/-- C5 witness: on the empty filesystem, stat of path a fails in both
adapters. -/
theorem stat_nonexistent_path_fails_witness :
    (ArduinoFilesystemAdapter.stat (mkArduinoEnv []) "a" 7).1 ≠ 0 ∧
    (EspIdfFilesystemAdapter.stat (mkPosixEnv []) "a" 7).1 ≠ 0 :=
  stat_nonexistent_path_fails [] "a" 7 7 rfl

/-- Arduino environment in which every platform call fails. -/
def envArduinoFail : ArduinoFsEnv :=
  { fsExists := fun _ => false
    fsOpen := fun _ _ => none
    fsRemove := fun _ => false
    fsBegin := fun _ => false }

/-- POSIX environment in which every platform call fails. -/
def envPosixFail : PosixEnv :=
  { statRes := fun _ => none
    fopenRes := fun _ _ => none
    unlinkRes := fun _ => -1
    spiffsRegisterRes := fun _ => -1 }

/-- C4: every storage-adapter operation is a total function of its
inputs (each is a plain Lean definition mirroring the code), and on any
underlying filesystem failure it hands the designated error value back
to the caller: -1 from stat, none from open and from the adapter
factories, false from remove, the short count reported by the platform
from read and write, and the fseek status from seek. -/
theorem storage_ops_error_values :
    (∀ (env : ArduinoFsEnv) (path : String) (s : Nat),
        env.fsExists path = false → ArduinoFilesystemAdapter.stat env path s = (-1, s))
  ∧ (∀ (env : ArduinoFsEnv) (path : String) (s : Nat),
        env.fsOpen path "r" = none → ArduinoFilesystemAdapter.stat env path s = (-1, s))
  ∧ (∀ (env : ArduinoFsEnv) (fn mode : String),
        env.fsOpen fn mode = none → ArduinoFilesystemAdapter.openFile env fn mode = none)
  ∧ (∀ (env : ArduinoFsEnv) (fn : String),
        env.fsRemove fn = false → ArduinoFilesystemAdapter.remove env fn = false)
  ∧ (∀ (env : ArduinoFsEnv) (config : FilesystemOpt),
        config.mustMount = true → env.fsBegin config.formatOnFail = false →
        makeDefaultFilesystemAdapterArduino env config = none)
  ∧ (∀ (env : PosixEnv) (path : String) (s : Nat),
        env.statRes path = none → EspIdfFilesystemAdapter.stat env path s = (-1, s))
  ∧ (∀ (env : PosixEnv) (fn mode : String),
        env.fopenRes fn mode = none → EspIdfFilesystemAdapter.openFile env fn mode = none)
  ∧ (∀ (env : PosixEnv) (fn : String),
        env.unlinkRes fn ≠ 0 → EspIdfFilesystemAdapter.remove env fn = false)
  ∧ (∀ (env : PosixEnv) (config : FilesystemOpt),
        config.mustMount = true → env.spiffsRegisterRes config.formatOnFail ≠ 0 →
        makeDefaultFilesystemAdapterEspIdf env config = none)
  ∧ (∀ (h : EspIdfFileAdapter) (len : Nat), (EspIdfFileAdapter.read h len).2.1 ≤ len)
  ∧ (∀ (h : EspIdfFileAdapter) (buf : List Nat),
        (EspIdfFileAdapter.write h buf).1 ≤ buf.length)
  ∧ (∀ (h : EspIdfFileAdapter) (offset : Nat),
        EspIdfFileAdapter.seek h offset = (0, ⟨{ h.file with pos := offset }⟩)) := by
  refine ⟨?_, ?_, ?_, ?_, ?_, ?_, ?_, ?_, ?_, ?_, ?_, ?_⟩
  · intro env path s h
    simp [ArduinoFilesystemAdapter.stat, h]
  · intro env path s h
    cases hex : env.fsExists path <;>
      simp [ArduinoFilesystemAdapter.stat, hex, h]
  · intro env fn mode h
    simp [ArduinoFilesystemAdapter.openFile, h]
  · intro env fn h
    simp [ArduinoFilesystemAdapter.remove, h]
  · intro env config hm hb
    cases hA : config.accessAllowed <;>
      simp [makeDefaultFilesystemAdapterArduino, ArduinoFilesystemAdapter.construct,
        hA, hm, hb]
  · intro env path s h
    simp [EspIdfFilesystemAdapter.stat, h]
  · intro env fn mode h
    simp [EspIdfFilesystemAdapter.openFile, h]
  · intro env fn h
    simp [EspIdfFilesystemAdapter.remove, h]
  · intro env config hm hr
    cases hA : config.accessAllowed <;>
      simp [makeDefaultFilesystemAdapterEspIdf, hA, hm, hr]
  · intro h len
    simp only [EspIdfFileAdapter.read, freadM, List.length_take]
    omega
  · intro h buf
    simp only [EspIdfFileAdapter.write, fwriteM, List.length_take]
    omega
  · intro h offset
    rfl

/-- C4 witness: in the all-failing environments, each operation returns
its designated error value. -/
theorem storage_ops_error_values_witness :
    ArduinoFilesystemAdapter.stat envArduinoFail "a" 7 = (-1, 7) ∧
    ArduinoFilesystemAdapter.openFile envArduinoFail "a" "r" = none ∧
    ArduinoFilesystemAdapter.remove envArduinoFail "a" = false ∧
    makeDefaultFilesystemAdapterArduino envArduinoFail ⟨true, true, false⟩ = none ∧
    EspIdfFilesystemAdapter.stat envPosixFail "a" 7 = (-1, 7) ∧
    EspIdfFilesystemAdapter.openFile envPosixFail "a" "r" = none ∧
    EspIdfFilesystemAdapter.remove envPosixFail "a" = false ∧
    makeDefaultFilesystemAdapterEspIdf envPosixFail ⟨true, true, false⟩ = none :=
  ⟨storage_ops_error_values.1 envArduinoFail "a" 7 rfl,
   storage_ops_error_values.2.2.1 envArduinoFail "a" "r" rfl,
   storage_ops_error_values.2.2.2.1 envArduinoFail "a" rfl,
   storage_ops_error_values.2.2.2.2.1 envArduinoFail ⟨true, true, false⟩ rfl rfl,
   storage_ops_error_values.2.2.2.2.2.1 envPosixFail "a" 7 rfl,
   storage_ops_error_values.2.2.2.2.2.2.1 envPosixFail "a" "r" rfl,
   storage_ops_error_values.2.2.2.2.2.2.2.1 envPosixFail "a" (by decide),
   storage_ops_error_values.2.2.2.2.2.2.2.2.1 envPosixFail ⟨true, true, false⟩ rfl (by decide)⟩

/-- Demo filesystem holding a directory at path d. -/
def fsDir : Fs := [("d", FsEntry.dir)]

/-- C6 counterexample: in the Arduino adapter on fsDir, the underlying
open of path d succeeds (USE_FS.open returns a truthy File object for
the directory), yet the adapter returns null, so open does not return a
handle exactly when the underlying filesystem successfully opens the
path. -/
theorem arduino_open_dir_counterexample :
    ((mkArduinoEnv fsDir).fsOpen "d" "r").isSome = true ∧
    ArduinoFilesystemAdapter.openFile (mkArduinoEnv fsDir) "d" "r" = none := by
  decide

/-- C6 amended: the Arduino adapter returns a handle exactly when the
underlying open succeeds and yields a regular file, the ESP-IDF adapter
exactly when fopen succeeds; in both, a returned handle wraps exactly
the successfully opened underlying file, never a failed open. -/
theorem open_some_iff_underlying (envA : ArduinoFsEnv) (envP : PosixEnv) (fn mode : String) :
    ((ArduinoFilesystemAdapter.openFile envA fn mode).isSome ↔
        ∃ f, envA.fsOpen fn mode = some f ∧ f.isFile = true)
  ∧ ((EspIdfFilesystemAdapter.openFile envP fn mode).isSome ↔
        (envP.fopenRes fn mode).isSome)
  ∧ (∀ h, ArduinoFilesystemAdapter.openFile envA fn mode = some h →
        envA.fsOpen fn mode = some h.file ∧ h.file.isFile = true)
  ∧ (∀ h, EspIdfFilesystemAdapter.openFile envP fn mode = some h →
        envP.fopenRes fn mode = some h.file) := by
  refine ⟨?_, ?_, ?_, ?_⟩
  · unfold ArduinoFilesystemAdapter.openFile
    cases hf : envA.fsOpen fn mode with
    | none => simp
    | some f =>
      cases hisf : f.isFile <;> simp [hisf]
  · unfold EspIdfFilesystemAdapter.openFile
    cases hf : envP.fopenRes fn mode <;> simp
  · intro h
    unfold ArduinoFilesystemAdapter.openFile
    cases hf : envA.fsOpen fn mode with
    | none => simp
    | some f =>
      cases hisf : f.isFile <;> simp [hisf]
      intro hfh
      rw [← hfh]
      exact ⟨rfl, hisf⟩
  · intro h
    unfold EspIdfFilesystemAdapter.openFile
    cases hf : envP.fopenRes fn mode with
    | none => simp
    | some f =>
      intro hfh
      simp at hfh
      rw [← hfh]

/-- C6 amended witness: on fsDemo the Arduino adapter hands out a handle
wrapping exactly the underlying regular file at path x. -/
theorem open_some_iff_underlying_witness :
    (mkArduinoEnv fsDemo).fsOpen "x" "r" = some ⟨true, 5⟩ ∧
    (⟨true, 5⟩ : ArduinoFile).isFile = true :=
  (open_some_iff_underlying (mkArduinoEnv fsDemo) (mkPosixEnv fsDemo) "x" "r").2.2.1
    ⟨⟨true, 5⟩⟩ (by decide)

theorem take_drop_append_middle (A wr rest : List Nat) (n : Nat) (hA : A.length = n) :
    ((A ++ wr ++ rest).drop n).take wr.length = wr := by
  subst hA
  rw [List.append_assoc, List.drop_left, List.take_left]

theorem take_length_take (buf : List Nat) (c : Nat) :
    buf.take ((buf.take c).length) = buf.take c := by
  rw [List.length_take, ← List.take_take, List.take_length]

/-- C7: read hands back exactly the bytes fread delivered (the next
at-most-len bytes of the stream) and returns their count, which is at
most len; write returns the count of bytes fwrite actually stored, at
most len, and the stored bytes are exactly that prefix of the buffer,
placed at the stream position. -/
theorem espidf_read_write_counts (h : EspIdfFileAdapter) (len : Nat) (buf : List Nat) :
    ((EspIdfFileAdapter.read h len).2.1 = (EspIdfFileAdapter.read h len).1.length
      ∧ (EspIdfFileAdapter.read h len).2.1 ≤ len
      ∧ (EspIdfFileAdapter.read h len).1 = (h.file.data.drop h.file.pos).take len)
  ∧ ((EspIdfFileAdapter.write h buf).1 ≤ buf.length
      ∧ (((EspIdfFileAdapter.write h buf).2.file.data.drop h.file.pos).take
            (EspIdfFileAdapter.write h buf).1 = buf.take (EspIdfFileAdapter.write h buf).1) ∧
        (EspIdfFileAdapter.write h buf).2.file.pos
          = h.file.pos + (EspIdfFileAdapter.write h buf).1) := by
  obtain ⟨f⟩ := h
  refine ⟨⟨rfl, ?_, rfl⟩, ?_, ?_, rfl⟩
  · simp only [EspIdfFileAdapter.read, freadM, List.length_take]
    omega
  · simp only [EspIdfFileAdapter.write, fwriteM, List.length_take]
    omega
  · show ((fwriteM f buf).2.data.drop f.pos).take (fwriteM f buf).1
      = buf.take (fwriteM f buf).1
    have htakelen :
        ((f.data ++ List.replicate (f.pos - f.data.length) 0).take f.pos).length
          = f.pos := by
      simp only [List.length_take, List.length_append, List.length_replicate]
      omega
    have hres : (fwriteM f buf).2.data
        = (f.data ++ List.replicate (f.pos - f.data.length) 0).take f.pos
          ++ buf.take f.wcap
          ++ (f.data ++ List.replicate (f.pos - f.data.length) 0).drop
              (f.pos + (buf.take f.wcap).length) := rfl
    have hcnt : (fwriteM f buf).1 = (buf.take f.wcap).length := rfl
    rw [hres, hcnt, take_drop_append_middle _ _ _ f.pos htakelen, take_length_take]

/-- C8: in the Arduino adapter, a path whose underlying entry exists but
opens as a non-regular-file (a directory) is treated as absent: stat
returns -1 and open returns null for every mode, even though the
underlying filesystem reports the path as existing and opens it. -/
theorem arduino_directory_treated_absent (env : ArduinoFsEnv) (path : String) (s : Nat)
    (hex : env.fsExists path = true)
    (hdir : ∀ mode, ∃ f, env.fsOpen path mode = some f ∧ f.isFile = false) :
    (ArduinoFilesystemAdapter.stat env path s).1 = -1 ∧
    ∀ mode, ArduinoFilesystemAdapter.openFile env path mode = none := by
  constructor
  · obtain ⟨f, hf, hisf⟩ := hdir "r"
    simp [ArduinoFilesystemAdapter.stat, hex, hf, hisf]
  · intro mode
    obtain ⟨f, hf, hisf⟩ := hdir mode
    simp [ArduinoFilesystemAdapter.openFile, hf, hisf]

/-- C8 witness: on fsDir the directory at path d exists and opens at
the underlying layer, yet the adapter reports stat -1 and open null. -/
theorem arduino_directory_treated_absent_witness :
    (ArduinoFilesystemAdapter.stat (mkArduinoEnv fsDir) "d" 7).1 = -1 ∧
    ArduinoFilesystemAdapter.openFile (mkArduinoEnv fsDir) "d" "r" = none := by
  have h := arduino_directory_treated_absent (mkArduinoEnv fsDir) "d" 7 (by decide)
    (fun mode => ⟨⟨false, 0⟩, rfl, rfl⟩)
  exact ⟨h.1, h.2 "r"⟩

/-- C9: each makeDefaultFilesystemAdapter returns null exactly when the
config forbids filesystem access or mounting was required and failed,
and any non-null adapter it returns is valid: the Arduino adapter has
its valid flag set, and the ESP-IDF adapter is returned only when the
required mount succeeded. -/
theorem make_default_adapter_none_iff :
    (∀ (env : ArduinoFsEnv) (config : FilesystemOpt),
        makeDefaultFilesystemAdapterArduino env config = none ↔
          (config.accessAllowed = false ∨
            (config.mustMount = true ∧ env.fsBegin config.formatOnFail = false)))
  ∧ (∀ (env : ArduinoFsEnv) (config : FilesystemOpt) (a : ArduinoFilesystemAdapter),
        makeDefaultFilesystemAdapterArduino env config = some a → a.valid = true)
  ∧ (∀ (env : PosixEnv) (config : FilesystemOpt),
        makeDefaultFilesystemAdapterEspIdf env config = none ↔
          (config.accessAllowed = false ∨
            (config.mustMount = true ∧ env.spiffsRegisterRes config.formatOnFail ≠ 0)))
  ∧ (∀ (env : PosixEnv) (config : FilesystemOpt) (a : EspIdfFilesystemAdapter),
        makeDefaultFilesystemAdapterEspIdf env config = some a →
          config.mustMount = true → env.spiffsRegisterRes config.formatOnFail = 0) := by
  refine ⟨?_, ?_, ?_, ?_⟩
  · intro env config
    obtain ⟨aa, mm, fof⟩ := config
    cases aa <;> cases mm <;>
      simp [makeDefaultFilesystemAdapterArduino, ArduinoFilesystemAdapter.construct]
  · intro env config a h
    obtain ⟨aa, mm, fof⟩ := config
    cases aa <;> cases mm <;>
      simp [makeDefaultFilesystemAdapterArduino, ArduinoFilesystemAdapter.construct] at h
    · rw [← h]
    · rcases h with ⟨hb, ha⟩
      rw [← ha]
      exact hb
  · intro env config
    obtain ⟨aa, mm, fof⟩ := config
    cases aa <;> cases mm <;>
      simp [makeDefaultFilesystemAdapterEspIdf]
  · intro env config a h hm
    obtain ⟨aa, mm, fof⟩ := config
    cases aa <;> cases mm <;>
      simp [makeDefaultFilesystemAdapterEspIdf] at h hm ⊢
    exact h.1

/-- C9 witness: with access forbidden the Arduino factory returns null,
and a concrete adapter the factory does return has its valid flag set. -/
theorem make_default_adapter_none_iff_witness :
    makeDefaultFilesystemAdapterArduino (mkArduinoEnv []) ⟨false, true, false⟩ = none ∧
    ArduinoFilesystemAdapter.valid ⟨true, ⟨true, false, false⟩⟩ = true :=
  ⟨(make_default_adapter_none_iff.1 (mkArduinoEnv []) ⟨false, true, false⟩).mpr
      (Or.inl rfl),
   make_default_adapter_none_iff.2.1 (mkArduinoEnv []) ⟨true, false, false⟩
      ⟨true, ⟨true, false, false⟩⟩ (by decide)⟩

/-- C10: whenever stat returns a nonzero (failure) status, the
caller-supplied size cell is left unchanged, in both adapters. -/
theorem stat_failure_leaves_size (envA : ArduinoFsEnv) (envP : PosixEnv)
    (path : String) (s t : Nat) :
    ((ArduinoFilesystemAdapter.stat envA path s).1 ≠ 0 →
      (ArduinoFilesystemAdapter.stat envA path s).2 = s)
  ∧ ((EspIdfFilesystemAdapter.stat envP path t).1 ≠ 0 →
      (EspIdfFilesystemAdapter.stat envP path t).2 = t) := by
  constructor
  · intro _
    unfold ArduinoFilesystemAdapter.stat
    split
    · rfl
    · split
      · rfl
      · split <;> rfl
  · intro hne
    cases hs : envP.statRes path with
    | none => simp [EspIdfFilesystemAdapter.stat, hs]
    | some v =>
      exact absurd (by simp [EspIdfFilesystemAdapter.stat, hs]) hne

/-- C10 witness: in the all-failing environments stat fails and the size
cells keep their initial values 7 and 9. -/
theorem stat_failure_leaves_size_witness :
    (ArduinoFilesystemAdapter.stat envArduinoFail "a" 7).2 = 7 ∧
    (EspIdfFilesystemAdapter.stat envPosixFail "a" 9).2 = 9 :=
  ⟨(stat_failure_leaves_size envArduinoFail envPosixFail "a" 7 9).1 (by decide),
   (stat_failure_leaves_size envArduinoFail envPosixFail "a" 7 9).2 (by decide)⟩
